import Mathlib

/-!
Verification of the Seinfeld script generator's retrieval tool and pipeline
entry against its specification.  The Python sources embedded here are
`tools/couchbase_rag.py` (the retrieval tool), `crew.py` (the orchestrator
entry `run_crew`) and `main.py` (the CLI entry that validates the theme).

Modelling conventions:
- Python exceptions are modelled by `Option`/`Except`: a function that can
  raise returns `none`/`.error` on the raising input.
- The external vector store (langchain's `CouchbaseQueryVectorStore`) is
  modelled as a capability, following the spec's description of the
  retrieval backend: a query-dependent scored candidate list, ranked by
  descending score, of which the top `k` are returned; a `searchError`
  field models a backend that raises at request time.
- Opaque connection handles (cluster, bucket, scope, collection, embeddings,
  OpenAI client) are modelled as `Option Unit`: `some ()` when the Python
  attribute was assigned a live object, `none` when it is still `None`.
-/

/-- Model of Python `str.split()` tokenisation: split on runs of whitespace,
discarding empty pieces.  `acc` holds the characters of the token being read,
in reverse. -/
def splitWsAux : List Char → List Char → List String
  | [], acc => if acc.isEmpty then [] else [String.mk acc.reverse]
  | c :: cs, acc =>
    if c.isWhitespace then
      if acc.isEmpty then splitWsAux cs [] else String.mk acc.reverse :: splitWsAux cs []
    else splitWsAux cs (c :: acc)

/-- Python `s.split()` (no separator argument): whitespace tokenisation. -/
def pySplit (s : String) : List String := splitWsAux s.toList []

/-- Fuel-driven core of Python `str.replace` for a non-empty pattern: replace
every non-overlapping occurrence of `pat`, scanning left to right.  Fuel equal
to the input length suffices because every step consumes at least one
character. -/
def replaceAux (pat rep : List Char) : Nat → List Char → List Char
  | 0, s => s
  | _ + 1, [] => []
  | fuel + 1, c :: cs =>
    if pat.isPrefixOf (c :: cs) ∧ ¬ pat.isEmpty then
      rep ++ replaceAux pat rep fuel (List.drop pat.length (c :: cs))
    else
      c :: replaceAux pat rep fuel cs

/-- Python `s.replace(pat, rep)` (case-sensitive, all occurrences). -/
def pyReplace (s pat rep : String) : String :=
  String.mk (replaceAux pat.toList rep.toList s.toList.length s.toList)

/-- Number of non-overlapping occurrences of `pat`, scanning left to right,
with the same fuel discipline as `replaceAux`. -/
def countOccAux (pat : List Char) : Nat → List Char → Nat
  | 0, _ => 0
  | _ + 1, [] => 0
  | fuel + 1, c :: cs =>
    if pat.isPrefixOf (c :: cs) ∧ ¬ pat.isEmpty then
      1 + countOccAux pat fuel (List.drop pat.length (c :: cs))
    else
      countOccAux pat fuel cs

/-- Number of non-overlapping occurrences of the pattern `pat` in `s`. -/
def countOcc (s pat : String) : Nat := countOccAux pat.toList s.toList.length s.toList

/-- Leading-whitespace removal on a character list. -/
def dropWhileWs : List Char → List Char
  | [] => []
  | c :: cs => if c.isWhitespace then dropWhileWs cs else c :: cs

/-- Python `s.strip()`: whitespace removed from both ends. -/
def pyStrip (s : String) : String :=
  String.mk ((dropWhileWs ((dropWhileWs s.toList).reverse)).reverse)

/-- One match returned by the retrieval backend: the dialogue text, its
metadata fields (key-value pairs such as Character, EpisodeNo, Season) and the
relevance score. -/
structure SearchResult where
  text : String
  metadata : List (String × String)
  score : Int
deriving DecidableEq, Repr

/-- Model of the external vector-store capability (the spec's retrieval
backend `similaritySearch(text, k, fields) -> ranked list of (text, metadata,
score)`).  `scored query` is the backend's scored candidate list for a query;
`searchError` set means the backend raises at request time. -/
structure VectorStore where
  scored : String → List SearchResult
  searchError : Option String

/-- Insert a result into a list sorted by descending score. -/
def insertDesc (r : SearchResult) : List SearchResult → List SearchResult
  | [] => [r]
  | x :: xs => if x.score ≤ r.score then r :: x :: xs else x :: insertDesc r xs

/-- Sort results by descending relevance score. -/
def sortByScoreDesc : List SearchResult → List SearchResult
  | [] => []
  | x :: xs => insertDesc x (sortByScoreDesc xs)

/-- Keep only the metadata fields the caller allowed. -/
def restrictFields (fields : List String) (md : List (String × String)) :
    List (String × String) :=
  md.filter (fun kv => fields.contains kv.1)

/-- The backend's `similarity_search(query, k=..., fields=...)`: raises when
`searchError` is set, otherwise ranks the candidates by descending score and
returns the top `k`, with metadata restricted to the allowed fields. -/
def VectorStore.similarity_search (vs : VectorStore) (query : String) (k : Nat)
    (fields : List String) : Except String (List SearchResult) :=
  match vs.searchError with
  | some e => Except.error e
  | none =>
    Except.ok (((sortByScoreDesc (vs.scored query)).take k).map
      (fun r => { r with metadata := restrictFields fields r.metadata }))

/-- The attribute state of a `SeinfeldRAGTool` instance, mirroring the class
attributes of `couchbase_rag.py` lines 51-57.  Each handle is `some ()` when
the Python attribute holds a live object and `none` when it is `None`. -/
structure SeinfeldRAGTool where
  _cluster : Option Unit
  _bucket : Option Unit
  _scope : Option Unit
  _collection : Option Unit
  _openai_client : Option Unit
  _embeddings : Option Unit
  _vector_store : Option VectorStore

/-- The environment a tool is constructed in: `failStep = none` means every
step of `_initialize_connections` succeeds; `failStep = some k` means an
exception is raised after `k` of the six attribute assignments (cluster,
bucket, scope, collection, embeddings, vector store) have completed, so at
most five of them completed (an exception can strike no later than during the
last assignment).  `store` is the backing vector store reached on success. -/
structure Env where
  failStep : Option Nat
  store : VectorStore

/-- Embedding of `_initialize_connections` (lines 64-110): the `try` block
assigns the six connection attributes in order; any exception is caught by the
blanket `except`, which only prints a warning — so construction never raises
and a failed setup leaves the unassigned attributes `None`.  `_openai_client`
is assigned by no path (the `OpenAI` import on line 70 is never used). -/
def _initialize_connections (env : Env) : SeinfeldRAGTool :=
  let n := match env.failStep with
    | none => 6
    | some k => min k 5
  { _cluster := if 1 ≤ n then some () else none
    _bucket := if 2 ≤ n then some () else none
    _scope := if 3 ≤ n then some () else none
    _collection := if 4 ≤ n then some () else none
    _openai_client := none
    _embeddings := if 5 ≤ n then some () else none
    _vector_store := if 6 ≤ n then some env.store else none }

/-- Construction of the tool (`__init__`, lines 59-62): it just runs
`_initialize_connections` on a fresh instance. -/
def SeinfeldRAGTool.new (env : Env) : SeinfeldRAGTool := _initialize_connections env

/-- The `demo_dialogues["default"]` template of `_get_demo_response`
(lines 176-233), transcribed line by line (trailing blanks of the original
kept). -/
def demoDefault : String :=
  "\n" ++
  "## Seinfeld Script Search Results (Demo Mode)\n" ++
  "**Note:** Running in demo mode - Couchbase connection not available.\n" ++
  "\n" ++
  "### Example 1 - Jerry's Apartment\n" ++
  "**Context:** Classic observational comedy setup\n" ++
  "\n" ++
  "```\n" ++
  "JERRY: See, that's the thing about [topic]. Everyone acts like it's normal, \n" ++
  "but have you ever really thought about it? I mean, really thought about it?\n" ++
  "\n" ++
  "GEORGE: What's there to think about? It's [topic]!\n" ++
  "\n" ++
  "JERRY: Exactly! That's my point. We just accept it.\n" ++
  "\n" ++
  "GEORGE: (getting agitated) Well what am I supposed to do, Jerry? Question \n" ++
  "everything? I've got enough problems!\n" ++
  "```\n" ++
  "\n" ++
  "### Example 2 - Monk's Coffee Shop\n" ++
  "**Context:** George's paranoid interpretation\n" ++
  "\n" ++
  "```\n" ++
  "GEORGE: You know what I think? I think this whole [topic] thing is a conspiracy.\n" ++
  "\n" ++
  "ELAINE: George, not everything is a conspiracy.\n" ++
  "\n" ++
  "GEORGE: That's exactly what they want you to think!\n" ++
  "\n" ++
  "KRAMER: (sliding into booth) I'm telling you, I've been saying this for years. \n" ++
  "[Topic]! It's all connected!\n" ++
  "\n" ++
  "JERRY: Here we go.\n" ++
  "```\n" ++
  "\n" ++
  "### Example 3 - Jerry's Apartment\n" ++
  "**Context:** Kramer's enthusiastic scheme\n" ++
  "\n" ++
  "```\n" ++
  "KRAMER: Jerry! Jerry! You're not gonna believe this!\n" ++
  "\n" ++
  "JERRY: What now?\n" ++
  "\n" ++
  "KRAMER: I've figured out the whole [topic] situation. It's genius!\n" ++
  "\n" ++
  "JERRY: Kramer, the last time you had a genius idea, you ended up in the \n" ++
  "Hudson River.\n" ++
  "\n" ++
  "KRAMER: That was different. That was a miscalculation. This? This is foolproof!\n" ++
  "\n" ++
  "JERRY: (to camera) Nothing's foolproof when it comes to Kramer.\n" ++
  "```\n" ++
  "\n" ++
  "---\n" ++
  "Use these examples as templates for the style, rhythm, and character voices.\n"

/-- Embedding of `_get_demo_response` (lines 174-235).  The returned string is
`demo_dialogues["default"].replace("[topic]", query.split()[0] if query else
"this")`: an empty query falls back to the token `"this"`; a non-empty query
is tokenised by `split()`, and indexing `[0]` into an empty token list (a
whitespace-only query) raises `IndexError`, modelled as `none`. -/
def _get_demo_response (query : String) : Option String :=
  if query = "" then
    some (pyReplace demoDefault "[topic]" "this")
  else
    match pySplit query with
    | [] => none
    | t :: _ => some (pyReplace demoDefault "[topic]" t)

/-- Embedding of `_vector_search` (lines 112-120): calls
`self._vector_store.similarity_search(query, k=num_results,
fields=["Character", "EpisodeNo", "Season"])`; any exception — including the
`AttributeError` raised when `_vector_store` is still `None` — is caught and
mapped to the empty list. -/
def _vector_search (tool : SeinfeldRAGTool) (query : String) (num_results : Nat) :
    List SearchResult :=
  match tool._vector_store with
  | none => []
  | some vs =>
    match vs.similarity_search query num_results ["Character", "EpisodeNo", "Season"] with
    | Except.ok results => results
    | Except.error _ => []

/-- One block of `_format_results` (lines 153-170): example header, optional
title/description metadata, dialogue truncated at 1000 characters, and the
relevance score. -/
def formatOneResult (i : Nat) (r : SearchResult) : String :=
  "### Example " ++ toString i ++ "\n" ++
  (match (r.metadata.find? (fun kv => kv.1 = "title")).map Prod.snd with
   | some title => "**Episode:** " ++ title ++ "\n"
   | none => "") ++
  (match (r.metadata.find? (fun kv => kv.1 = "description")).map Prod.snd with
   | some descr => "**Context:** " ++ descr ++ "\n"
   | none => "") ++
  (if r.text = "" then ""
   else "**Dialogue:**\n```\n" ++ r.text.take 1000 ++
     (if r.text.length > 1000 then "..." else "") ++ "\n```\n") ++
  "**Relevance Score:** " ++ toString r.score ++ "\n\n" ++
  "---\n\n"

/-- Embedding of `_format_results` (lines 147-172): the header followed by one
block per result, numbered from 1. -/
def _format_results (results : List SearchResult) (query : String) : String :=
  "## Seinfeld Script Search Results\n" ++
  "**Query:** " ++ query ++ "\n" ++
  "**Found " ++ toString results.length ++ " relevant examples:**\n\n" ++
  String.join (results.enum.map (fun ir => formatOneResult (ir.1 + 1) ir.2))

/-- Embedding of `_run` (lines 122-145): when `_cluster` or `_openai_client`
is `None` the demo response is returned; otherwise the vector search runs and
an empty result list again falls back to the demo response.  The `Option`
result propagates the demo responder's possible `IndexError`. -/
def SeinfeldRAGTool._run (tool : SeinfeldRAGTool) (query : String)
    (num_results : Nat) : Option String :=
  if tool._cluster.isNone || tool._openai_client.isNone then
    _get_demo_response query
  else
    let results := _vector_search tool query num_results
    if results.isEmpty then
      _get_demo_response query
    else
      some (_format_results results query)

/-- The validated input schema `SeinfeldSearchInput` (lines 14-28). -/
structure SeinfeldSearchInput where
  query : String
  num_results : Int
deriving DecidableEq, Repr

/-- Pydantic validation of `SeinfeldSearchInput`: `num_results` carries the
constraints `ge=1, le=10`, so an out-of-range value is rejected with a
validation error, and an in-range value is accepted unchanged. -/
def SeinfeldSearchInput.validate (query : String) (num_results : Int) :
    Except String SeinfeldSearchInput :=
  if num_results < 1 then
    Except.error "num_results: input should be greater than or equal to 1"
  else if 10 < num_results then
    Except.error "num_results: input should be less than or equal to 10"
  else
    Except.ok { query := query, num_results := num_results }

/-- Whether validation accepted the input. -/
def validationOk (r : Except String SeinfeldSearchInput) : Bool :=
  match r with
  | Except.ok _ => true
  | Except.error _ => false

/-- Outcome of the CLI entry point `main` (main.py): either the run is
rejected with exit code 1 before `run_crew` is called (so no generation stage
ever executes), or `run_crew` is invoked with the resolved theme. -/
inductive MainOutcome where
  | rejected
  | ran (theme : String)
deriving DecidableEq, Repr

/-- Embedding of the theme-resolution part of `main` (main.py lines 160-169)
followed by the call to `run_crew` (crew.py lines 156-174, which performs no
theme validation of its own).  `argsTheme` is the optional positional CLI
argument, `interactive` the `-i` flag, `promptInput` what `input("Theme: ")`
would return.  When the CLI theme is missing or empty, the stripped prompt
input is used instead; if that is empty too, the program exits with status 1
before the crew is created. -/
def mainOutcome (argsTheme : Option String) (interactive : Bool)
    (promptInput : String) : MainOutcome :=
  let themeTruthy := match argsTheme with
    | none => false
    | some t => t ≠ ""
  if interactive || !themeTruthy then
    let t := pyStrip promptInput
    if t = "" then MainOutcome.rejected else MainOutcome.ran t
  else
    MainOutcome.ran (argsTheme.getD "")

/-- A concrete indexed document, used to instantiate the backend model. -/
def georgeDoc : SearchResult :=
  { text := "GEORGE: I hate my job! Everybody hates their job!"
    metadata := [("Character", "George"), ("EpisodeNo", "6"), ("Season", "3")]
    score := 10 }

/-- A healthy backing store holding `georgeDoc` and raising no error. -/
def georgeStore : VectorStore :=
  { scored := fun _ => [georgeDoc], searchError := none }

/-- A backing store whose similarity search raises at request time. -/
def errStore : VectorStore :=
  { scored := fun _ => [], searchError := some "request timed out" }

/-- An environment in which every step of connection setup succeeds. -/
def envOk : Env := { failStep := none, store := georgeStore }

/-- An environment in which connection setup fails before any assignment. -/
def envFail : Env := { failStep := some 0, store := georgeStore }

/-- A hypothetical fully-connected instance (every handle assigned, including
`_openai_client`) whose backing store errors at request time: the state that
exercises the vector-search branch of `_run`. -/
def toolNormalErr : SeinfeldRAGTool :=
  { _cluster := some (), _bucket := some (), _scope := some ()
    _collection := some (), _openai_client := some (), _embeddings := some ()
    _vector_store := some errStore }

/-! ## Helper lemmas shared by the claims -/

/-- The initializer assigns `_openai_client` on no path. -/
theorem openaiClient_none (env : Env) :
    (SeinfeldRAGTool.new env)._openai_client = none := rfl

/-- Because `_openai_client` is never assigned, the mode check of `_run`
always routes to the demo responder, whatever the environment. -/
theorem run_eq_demo (env : Env) (q : String) (k : Nat) :
    (SeinfeldRAGTool.new env)._run q k = _get_demo_response q := by
  unfold SeinfeldRAGTool._run
  rw [openaiClient_none]
  simp

/-- The vector search never returns more than `k` results: the backend takes
the top `k` of the ranked candidates, and every error path returns `[]`. -/
theorem vector_search_length_le (tool : SeinfeldRAGTool) (q : String) (k : Nat) :
    (_vector_search tool q k).length ≤ k := by
  unfold _vector_search
  cases hvs : tool._vector_store with
  | none => simp
  | some vs =>
    unfold VectorStore.similarity_search
    cases herr : vs.searchError with
    | some e => simp [herr]
    | none =>
      simp only [herr, List.length_map, List.length_take]
      exact Nat.min_le_left _ _

/-- Tokenising an all-whitespace character list yields no tokens. -/
theorem splitWsAux_all_ws (l : List Char) (h : ∀ c ∈ l, c.isWhitespace) :
    splitWsAux l [] = [] := by
  induction l with
  | nil => rfl
  | cons c cs ih =>
    unfold splitWsAux
    rw [if_pos (h c (List.mem_cons_self c cs))]
    simpa using ih (fun x hx => h x (List.mem_cons_of_mem c hx))

/-- On a non-empty, all-whitespace query the demo responder indexes into an
empty token list and raises (`none`). -/
theorem demo_ws_none (q : String) (hne : q ≠ "")
    (hws : ∀ c ∈ q.toList, c.isWhitespace) :
    _get_demo_response q = none := by
  unfold _get_demo_response
  rw [if_neg hne]
  have hsplit : pySplit q = [] := splitWsAux_all_ws q.toList hws
  rw [hsplit]

/-- A query with a first token is answered with the template, the token
substituted for the lowercase placeholder. -/
theorem demo_first_token (q t : String) (ts : List String)
    (h : pySplit q = t :: ts) :
    _get_demo_response q = some (pyReplace demoDefault "[topic]" t) := by
  have hne : q ≠ "" := by
    intro hq
    subst hq
    simp [pySplit, splitWsAux] at h
  unfold _get_demo_response
  rw [if_neg hne, h]

/-! ## The claims -/

/-- C1: the spec says that when the backing index connection was successfully
established (normal mode), `search` performs the similarity search and returns
up to `result_count` matches.  The code contradicts this intent: even in the
environment `envOk`, where every connection step succeeds and the store holds
a relevant match (the vector search would find exactly one result), `_run`
still returns the demo response, because its mode check also requires
`_openai_client`, which `_initialize_connections` never assigns.  The
similarity-search path is dead code. -/
theorem c1_connected_tool_still_answers_demo :
    (SeinfeldRAGTool.new envOk)._cluster = some () ∧
    (SeinfeldRAGTool.new envOk)._vector_store = some georgeStore ∧
    (_vector_search (SeinfeldRAGTool.new envOk) "George complaining about his job" 3).length = 1 ∧
    (SeinfeldRAGTool.new envOk)._run "George complaining about his job" 3 =
      _get_demo_response "George complaining about his job" :=
  ⟨rfl, rfl, rfl, run_eq_demo envOk "George complaining about his job" 3⟩

/-- C2: for every environment and every query, `_run` routes to the demo-mode
responder — `_openai_client` is tested in the mode check but assigned by no
path of `_initialize_connections`, so it is always `None`, whether or not the
Couchbase connection succeeded. -/
theorem c2_run_always_demo (env : Env) (q : String) (k : Nat) :
    (SeinfeldRAGTool.new env)._openai_client = none ∧
    (SeinfeldRAGTool.new env)._run q k = _get_demo_response q :=
  ⟨openaiClient_none env, run_eq_demo env q k⟩

/-- C3 counterexample: the claim says `result_count = 0` behaves as `1` and
`15` as `10`.  In fact the pydantic schema (`ge=1, le=10`) rejects 0 and 15
with a validation error, while 1 is accepted — out-of-range values fail
rather than being clamped. -/
theorem c3_out_of_range_is_rejected_not_clamped :
    validationOk (SeinfeldSearchInput.validate "George" 0) = false ∧
    validationOk (SeinfeldSearchInput.validate "George" 15) = false ∧
    SeinfeldSearchInput.validate "George" 1 =
      Except.ok { query := "George", num_results := 1 } :=
  ⟨rfl, rfl, rfl⟩

/-- C3 amended: a requested `result_count` is accepted by the input schema
exactly when it lies in [1,10]; values outside the range are rejected with a
validation error, not clamped into the range. -/
theorem c3_validation_accepts_iff_in_range (q : String) (n : Int) :
    validationOk (SeinfeldSearchInput.validate q n) = true ↔ 1 ≤ n ∧ n ≤ 10 := by
  unfold SeinfeldSearchInput.validate validationOk
  split_ifs with h1 h2 <;> simp <;> omega

set_option maxRecDepth 100000 in
/-- C4 counterexample: for the valid request `result_count = 1` the tool (in
its always-taken degraded mode) returns the demo response, which contains 3
example passages — more than the requested bound of 1. -/
theorem c4_demo_response_exceeds_result_count :
    (SeinfeldRAGTool.new envFail)._run "soup" 1 =
      some (pyReplace demoDefault "[topic]" "soup") ∧
    countOcc (pyReplace demoDefault "[topic]" "soup") "### Example" = 3 ∧
    ¬ (3 ≤ 1) :=
  ⟨(run_eq_demo envFail "soup" 1).trans rfl, by decide, by decide⟩

/-- C4 amended: the (unreachable) normal-mode vector search indeed returns at
most `result_count` matches, but every reachable call is answered in degraded
mode by the demo response, which ignores `result_count` entirely and always
carries its fixed 3 example passages — so the bound holds in degraded mode
only when `result_count ≥ 3`. -/
theorem c4_result_count_bound (tool : SeinfeldRAGTool) (env : Env) (q : String)
    (k : Nat) :
    (_vector_search tool q k).length ≤ k ∧
    (SeinfeldRAGTool.new env)._run q k = _get_demo_response q :=
  ⟨vector_search_length_le tool q k, run_eq_demo env q k⟩

/-- C5: when the theme input is empty — the CLI argument missing or empty and
the interactive prompt answered with a blank — `main` exits with status 1
before `run_crew` is called, so the run is rejected before any generation
stage executes and the rejection is surfaced immediately. -/
theorem c5_empty_theme_rejected_before_stages (argsTheme : Option String)
    (interactive : Bool) (promptInput : String)
    (hcli : argsTheme = none ∨ argsTheme = some "")
    (hprompt : pyStrip promptInput = "") :
    mainOutcome argsTheme interactive promptInput = MainOutcome.rejected := by
  unfold mainOutcome
  rcases hcli with h | h <;> subst h <;> simp [hprompt]

/-- C5 witness: the empty CLI theme with an empty interactive reply is
rejected. -/
theorem c5_empty_theme_rejected_witness :
    mainOutcome (some "") false "" = MainOutcome.rejected :=
  c5_empty_theme_rejected_before_stages (some "") false "" (Or.inr rfl) rfl

set_option maxRecDepth 100000 in
/-- C6 counterexample: for the query "soup is good" the degraded-mode
response substitutes the first token "soup" for the lowercase placeholder,
but the capitalised occurrence `[Topic]` (Kramer's line) is left in place:
not every topic-placeholder occurrence is substituted. -/
theorem c6_capitalised_placeholder_survives :
    _get_demo_response "soup is good" =
      some (pyReplace demoDefault "[topic]" "soup") ∧
    countOcc demoDefault "[Topic]" = 1 ∧
    countOcc (pyReplace demoDefault "[topic]" "soup") "[Topic]" = 1 ∧
    countOcc (pyReplace demoDefault "[topic]" "soup") "[topic]" = 0 :=
  ⟨rfl, by decide, by decide, by decide⟩

/-- C6 amended: in degraded mode, a query with at least one token is answered
with the fixed template in which every occurrence of the lowercase
placeholder `[topic]` is replaced by the query's first whitespace-separated
token; the single capitalised occurrence `[Topic]` is not substituted
(`str.replace` is case-sensitive). -/
theorem c6_first_token_substituted (q t : String) (ts : List String)
    (h : pySplit q = t :: ts) :
    _get_demo_response q = some (pyReplace demoDefault "[topic]" t) :=
  demo_first_token q t ts h

/-- C6 witness: the query "soup is good" is answered with the template, its
first token "soup" substituted. -/
theorem c6_first_token_substituted_witness :
    _get_demo_response "soup is good" =
      some (pyReplace demoDefault "[topic]" "soup") :=
  c6_first_token_substituted "soup is good" "soup" ["is", "good"] (by decide)

/-- C7: when connection setup fails at any step, construction still returns
an instance (the blanket `except` swallows the error), the vector store is
left unassigned, and every subsequent `_run` call on that instance is
answered by the demo responder — the pure state never changes, so degraded
mode is permanent and no reconnection is ever attempted. -/
theorem c7_setup_failure_is_permanent_demo (env : Env) (q : String) (k : Nat)
    (hfail : env.failStep ≠ none) :
    (SeinfeldRAGTool.new env)._vector_store = none ∧
    (SeinfeldRAGTool.new env)._run q k = _get_demo_response q := by
  constructor
  · obtain ⟨j, hj⟩ := Option.ne_none_iff_exists'.mp hfail
    show (_initialize_connections env)._vector_store = none
    unfold _initialize_connections
    rw [hj]
    have hnot : ¬ (6 ≤ min j 5) := by
      have := Nat.min_le_right j 5
      omega
    simp [hnot]
  · exact run_eq_demo env q k

/-- C7 witness: a tool built in the failing environment has no store and
answers the query "soup" with the demo response. -/
theorem c7_setup_failure_witness :
    (SeinfeldRAGTool.new envFail)._vector_store = none ∧
    (SeinfeldRAGTool.new envFail)._run "soup" 2 = _get_demo_response "soup" :=
  c7_setup_failure_is_permanent_demo envFail "soup" 2 (by decide)

/-- C8: when the similarity search raises at request time, `_vector_search`
catches the error within the call and returns the empty list, and `_run` —
whatever mode its check takes — answers with the degraded-mode fallback
response; the search exception never propagates to the calling stage. -/
theorem c8_search_error_caught_maps_to_demo (tool : SeinfeldRAGTool)
    (vs : VectorStore) (q : String) (k : Nat) (e : String)
    (hstore : tool._vector_store = some vs) (herr : vs.searchError = some e) :
    _vector_search tool q k = [] ∧
    tool._run q k = _get_demo_response q := by
  have hvs : _vector_search tool q k = [] := by
    simp only [_vector_search, hstore, VectorStore.similarity_search, herr]
  refine ⟨hvs, ?_⟩
  unfold SeinfeldRAGTool._run
  by_cases hmode : tool._cluster.isNone || tool._openai_client.isNone
  · rw [if_pos hmode]
  · rw [if_neg hmode]
    simp only [hvs, List.isEmpty_nil, if_true]

/-- C8 witness: on the fully-connected instance whose store raises, the
search error is mapped to the empty result set and the call returns the
demo fallback. -/
theorem c8_search_error_caught_witness :
    _vector_search toolNormalErr "jerry" 3 = [] ∧
    toolNormalErr._run "jerry" 3 = _get_demo_response "jerry" :=
  c8_search_error_caught_maps_to_demo toolNormalErr errStore "jerry" 3
    "request timed out" rfl rfl

/-- C9: the empty query does not fail: the demo responder replaces the empty
input by the safe default token "this", and `_run` returns that response for
every environment and every requested result count. -/
theorem c9_empty_query_gets_safe_default (env : Env) (k : Nat) :
    (SeinfeldRAGTool.new env)._run "" k =
      some (pyReplace demoDefault "[topic]" "this") :=
  (run_eq_demo env "" k).trans rfl

/-- C10: a query that is non-empty but all whitespace defeats the safe
default, which guards only the exactly-empty string: `split()` returns no
tokens, indexing `[0]` raises `IndexError`, and the exception propagates out
of `_run` (modelled as `none`). -/
theorem c10_whitespace_query_raises (env : Env) (q : String) (k : Nat)
    (hne : q ≠ "") (hws : ∀ c ∈ q.toList, c.isWhitespace) :
    _get_demo_response q = none ∧ (SeinfeldRAGTool.new env)._run q k = none := by
  have hd := demo_ws_none q hne hws
  exact ⟨hd, (run_eq_demo env q k).trans hd⟩

/-- C10 witness: the one-blank query raises in the demo responder and in
`_run`. -/
theorem c10_whitespace_query_raises_witness :
    _get_demo_response " " = none ∧
    (SeinfeldRAGTool.new envFail)._run " " 5 = none :=
  c10_whitespace_query_raises envFail " " 5 (by decide) (by decide)
